import Mathlib

/-!
Shallow embedding of the DMIPL repository's parametric Rosenbrock problem
construction (`src/problem/neuromancer/rosenbrock.py`) and of the experiment
configuration / data pipeline of `submit_rb.py`, together with theorems
checking the natural-language specification against this embedding.

Python-to-Lean conventions used throughout:
  * neuroMANCER symbolic expressions are modelled by the inductive `Expr`;
    a `variable(name)` object is represented by its name (a `String`), and
    the slice `v[:, i]` by `Expr.slice name i`.
  * Python `int` values are `ℤ`, Python numeric scalars entering symbolic
    expressions are `ℚ`.
  * Fallible Python code (raising exceptions) is modelled with
    `Except PyError`; the distinct exception classes that can occur in the
    embedded fragment are the constructors of `PyError`.
  * Python `dict` insertion-order semantics (later assignment to an existing
    key overwrites the value in place, new keys append) are modelled by
    `pyInsert` / association lists.
  * `get_constrs` reads the free name `num_vars`, resolved against the
    module-global namespace; the embedding passes that namespace explicitly
    as an `Option ℤ` argument (`none` = no module-level binding, as when the
    module is imported; `some n` = a module-level binding with value `n`,
    as in the `__main__` block).
-/

namespace DMIPL

/-- Python exception classes that the embedded code can raise. -/
inductive PyError
  | valueError
  | attributeError
  | nameError
deriving DecidableEq

/-- Optimization direction of a neuroMANCER objective. -/
inductive Direction
  | minimize
  | maximize
deriving DecidableEq

/-- Comparison operator of a neuroMANCER constraint. -/
inductive Cmp
  | ge
  | le
deriving DecidableEq

/-- Symbolic neuroMANCER expressions as built by the repository code:
numeric literals, tensor slices `v[:, i]`, and the arithmetic operators
actually used (`+`, `-`, `*`, `/`, integer power). -/
inductive Expr
  | lit (q : ℚ)
  | slice (name : String) (i : ℕ)
  | add (e₁ e₂ : Expr)
  | sub (e₁ e₂ : Expr)
  | mul (e₁ e₂ : Expr)
  | div (e₁ e₂ : Expr)
  | pow (e : Expr) (n : ℕ)

/-- Evaluate an expression in an environment assigning a rational to each
slice `name[:, i]` (one datapoint of each named tensor). -/
def Expr.eval (env : String → ℕ → ℚ) : Expr → ℚ
  | Expr.lit q => q
  | Expr.slice name i => env name i
  | Expr.add e₁ e₂ => e₁.eval env + e₂.eval env
  | Expr.sub e₁ e₂ => e₁.eval env - e₂.eval env
  | Expr.mul e₁ e₂ => e₁.eval env * e₂.eval env
  | Expr.div e₁ e₂ => e₁.eval env / e₂.eval env
  | Expr.pow e n => e.eval env ^ n

/-- Number of nodes of an expression tree (a structural probe used to
distinguish expressions without deciding rational equalities). -/
def Expr.size : Expr → ℕ
  | Expr.lit _ => 1
  | Expr.slice _ _ => 1
  | Expr.add e₁ e₂ => e₁.size + e₂.size + 1
  | Expr.sub e₁ e₂ => e₁.size + e₂.size + 1
  | Expr.mul e₁ e₂ => e₁.size + e₂.size + 1
  | Expr.div e₁ e₂ => e₁.size + e₂.size + 1
  | Expr.pow e _ => e.size + 1

/-- A neuroMANCER objective: the expression, the weight passed to
`minimize`, the name, and the direction. -/
structure Objective where
  expr : Expr
  weight : ℚ
  name : String
  direction : Direction

/-- A neuroMANCER constraint `lhs cmp rhs` with a scalar weight (set by
multiplying the constraint by a number) and a name. -/
structure Constraint where
  lhs : Expr
  cmp : Cmp
  rhs : Expr
  weight : ℚ
  name : String

/-- Satisfaction of a constraint's inequality at one datapoint. -/
def Constraint.holds (c : Constraint) (env : String → ℕ → ℚ) : Prop :=
  match c.cmp with
  | Cmp.ge => c.rhs.eval env ≤ c.lhs.eval env
  | Cmp.le => c.lhs.eval env ≤ c.rhs.eval env

instance (c : Constraint) (env : String → ℕ → ℚ) : Decidable (c.holds env) := by
  unfold Constraint.holds
  exact match c.cmp with
    | Cmp.ge => inferInstanceAs (Decidable (_ ≤ _))
    | Cmp.le => inferInstanceAs (Decidable (_ ≤ _))

/-- Scaling a constraint by a scalar (Python `penalty_weight * (g >= 0)`)
multiplies its weight. -/
def mulConstraint (w : ℚ) (c : Constraint) : Constraint :=
  { c with weight := w * c.weight }

/-- Python dict assignment `d[k] = v`: overwrite in place when the key is
present, append otherwise. -/
def pyInsert {κ β : Type} [DecidableEq κ] (d : List (κ × β)) (k : κ) (v : β) :
    List (κ × β) :=
  if d.any fun kv => decide (kv.1 = k) then
    d.map fun kv => if kv.1 = k then (k, v) else kv
  else
    d ++ [(k, v)]

/-- Build a Python dict from a list of key/value pairs in order. -/
def pyDict {κ β : Type} [DecidableEq κ] (entries : List (κ × β)) : List (κ × β) :=
  entries.foldl (fun d kv => pyInsert d kv.1 kv.2) []

/-- Python dict lookup `d[k]`, `none` modelling a `KeyError`. -/
def dictGet {κ β : Type} [DecidableEq κ] (d : List (κ × β)) (k : κ) : Option β :=
  (d.find? fun kv => decide (kv.1 = k)).map Prod.snd

/-- The dict `{key: nm.constraint.variable(key) for key in keys}` built by
the loops in `rosenbrock` (lines 10-16); a variable object is represented by
its name. -/
def buildVarDict (keys : List String) : List (String × String) :=
  keys.foldl (fun d k => pyInsert d k k) []

/-- Python tuple unpacking `x, = d.values()`: succeeds exactly on a
one-element list, otherwise raises `ValueError`. -/
def unpack1 (l : List String) : Except PyError String :=
  match l with
  | [x] => Except.ok x
  | _ => Except.error PyError.valueError

/-- Python tuple unpacking `p, a = d.values()`: succeeds exactly on a
two-element list, otherwise raises `ValueError`. -/
def unpack2 (l : List String) : Except PyError (String × String) :=
  match l with
  | [p, a] => Except.ok (p, a)
  | _ => Except.error PyError.valueError

/-- Python's builtin `sum` over a list of symbolic expressions with the
default start `0`: for a nonempty list it builds `((0 + t₀) + t₁) + ⋯`;
for an empty list it returns the plain `int` `0`, which is not a symbolic
expression (`none` — downstream attribute access on it raises). -/
def pySum (ts : List Expr) : Option Expr :=
  match ts with
  | [] => none
  | t :: rest => some (rest.foldl Expr.add (Expr.add (Expr.lit 0) t))

/-- The generator terms of the objective sum in `get_obj` (line 31):
`(1 - x[:, i]) ** 2 + a[:, i] * (x[:, i + 1] - x[:, i] ** 2) ** 2`
for `i in range(num_vars - 1)`. -/
def objTerms (x a : String) (num_vars : ℤ) : List Expr :=
  (List.range (num_vars - 1).toNat).map fun i =>
    Expr.add
      (Expr.pow (Expr.sub (Expr.lit 1) (Expr.slice x i)) 2)
      (Expr.mul (Expr.slice a i)
        (Expr.pow (Expr.sub (Expr.slice x (i + 1)) (Expr.pow (Expr.slice x i) 2)) 2))

/-- The generator terms of constraint 0 in `get_constrs` (line 48):
`(-1) ** i * x[:, i]` for `i in range(num_vars)`. -/
def c0Terms (x : String) (n : ℕ) : List Expr :=
  (List.range n).map fun i => Expr.mul (Expr.lit ((-1) ^ i)) (Expr.slice x i)

/-- The generator terms of constraints 1 and 2 (lines 53 and 58):
`x[:, i] ** 2` for `i in range(num_vars)`. -/
def sqTerms (x : String) (n : ℕ) : List Expr :=
  (List.range n).map fun i => Expr.pow (Expr.slice x i) 2

/-- `get_obj(vars, params, num_vars)` (lines 22-34): unpacks the single
decision variable and the two parameters, sums the Rosenbrock terms over
`range(num_vars - 1)` and calls `.minimize(weight=1.0, name="obj")`.
When the sum is empty it is the `int` `0`, and `0 .minimize` raises
`AttributeError`. -/
def get_obj (vars params : List (String × String)) (num_vars : ℤ) :
    Except PyError Objective :=
  match unpack1 (vars.map Prod.snd) with
  | Except.error e => Except.error e
  | Except.ok x =>
    match unpack2 (params.map Prod.snd) with
    | Except.error e => Except.error e
    | Except.ok (_p, a) =>
      match pySum (objTerms x a num_vars) with
      | none => Except.error PyError.attributeError
      | some f =>
          Except.ok { expr := f, weight := 1, name := "obj", direction := Direction.minimize }

/-- `get_constrs(vars, params, penalty_weight)` (lines 37-62): unpacks the
variable and parameter dicts, then builds the three constraints. The index
bound `num_vars` is a FREE name in the Python source, resolved against the
module-global namespace (`global_num_vars`; `none` raises `NameError`).
An empty constraint sum is the `int` `0`, on which the subsequent attribute
assignment `con.name = ...` raises `AttributeError`. -/
def get_constrs (vars params : List (String × String)) (penalty_weight : ℚ)
    (global_num_vars : Option ℤ) : Except PyError (List Constraint) :=
  match unpack1 (vars.map Prod.snd) with
  | Except.error e => Except.error e
  | Except.ok x =>
    match unpack2 (params.map Prod.snd) with
    | Except.error e => Except.error e
    | Except.ok (p, _a) =>
      match global_num_vars with
      | none => Except.error PyError.nameError
      | some num_vars =>
        match pySum (c0Terms x num_vars.toNat) with
        | none => Except.error PyError.attributeError
        | some g₀ =>
          let con0 := { mulConstraint penalty_weight
            { lhs := g₀, cmp := Cmp.ge, rhs := Expr.lit 0, weight := 1, name := "" }
            with name := "c0" }
          match pySum (sqTerms x num_vars.toNat) with
          | none => Except.error PyError.attributeError
          | some g₁ =>
            let con1 := { mulConstraint penalty_weight
              { lhs := g₁, cmp := Cmp.ge,
                rhs := Expr.div (Expr.slice p 0) (Expr.lit 2), weight := 1, name := "" }
              with name := "c1" }
            match pySum (sqTerms x num_vars.toNat) with
            | none => Except.error PyError.attributeError
            | some g₂ =>
              let con2 := { mulConstraint penalty_weight
                { lhs := g₂, cmp := Cmp.le,
                  rhs := Expr.slice p 0, weight := 1, name := "" }
                with name := "c2" }
              Except.ok [con0, con1, con2]

/-- `rosenbrock(var_keys, param_keys, penalty_weight, num_vars)`
(lines 8-19): builds the parameter and variable dicts, the objective list,
and the constraints. Note the source passes `num_vars` as the third
positional argument of `get_constrs`, i.e. into its `penalty_weight`
parameter (line 18), and never uses its own `penalty_weight` argument. -/
def rosenbrock (var_keys param_keys : List String) (penalty_weight : ℚ)
    (num_vars : ℤ) (global_num_vars : Option ℤ) :
    Except PyError (List Objective × List Constraint) :=
  let params := buildVarDict param_keys
  let vars := buildVarDict var_keys
  match get_obj vars params num_vars with
  | Except.error e => Except.error e
  | Except.ok obj =>
    match get_constrs vars params (num_vars : ℚ) global_num_vars with
    | Except.error e => Except.error e
    | Except.ok constrs => Except.ok ([obj], constrs)

/-- The variable dict built from `rosenbrock`'s `["x"]`. -/
def stdVars : List (String × String) := buildVarDict ["x"]

/-- The parameter dict built from `rosenbrock`'s `["p", "a"]`. -/
def stdParams : List (String × String) := buildVarDict ["p", "a"]

/-- One-datapoint environment: the decision tensor `x`, the scalar bound
`p` (slice 0) and the coefficient tensor `a`. -/
def envOf (x : List ℚ) (p : ℚ) (a : List ℚ) : String → ℕ → ℚ :=
  fun name i =>
    if name = "x" then x.getD i 0
    else if name = "p" then (if i = 0 then p else 0)
    else if name = "a" then a.getD i 0
    else 0

/-!
Embedding of the experiment driver `submit_rb.py`: the argparse choices,
the hyperparameter selection block (lines 46-53), and the dataloader
construction (lines 71-74); plus the dataloaders of the `__main__` block of
`rosenbrock.py` (lines 91-96).
-/

/-- The `choices` list of the `--size` argument. -/
def size_choices : List ℕ := [1, 10, 100, 1000, 10000]

/-- The `choices` list of the `--samples` argument. -/
def samples_choices : List ℕ := [800, 8000, 80000]

/-- The key/value pairs of the dict literal
`{1:4, 10:16, 100:64, 1000:256, 10000:1024, 10000:4096}` (line 46),
in source order, duplicate key included. -/
def hsize_entries : List (ℕ × ℕ) :=
  [(1, 4), (10, 16), (100, 64), (1000, 256), (10000, 1024), (10000, 4096)]

/-- `hsize_dict`: the Python dict built from the literal, with the later
duplicate entry overwriting the earlier one. -/
def hsize_dict : List (ℕ × ℕ) := pyDict hsize_entries

/-- The experiment configuration assembled in `submit_rb.py` (lines 38-53). -/
structure Config where
  size : ℕ
  samples : ℕ
  steepness : ℕ
  batch_size : ℕ
  hlayers_sol : ℕ
  hlayers_rnd : ℕ
  hsize : ℕ
  lr : ℚ
  penalty : ℚ

/-- Building the configuration: argparse validates `size` and `samples`
against their `choices` lists, then the dependent hyperparameters are set —
`hsize` by the dict lookup `hsize_dict[config.size]`, the others as the
constants of lines 47-52. -/
def makeConfig (size samples : ℕ) : Option Config :=
  if size ∈ size_choices ∧ samples ∈ samples_choices then
    (dictGet hsize_dict size).map fun h =>
      { size := size, samples := samples, steepness := 50, batch_size := 64,
        hlayers_sol := 5, hlayers_rnd := 4, hsize := h, lr := 1 / 1000, penalty := 100 }
  else
    none

/-- A torch `DataLoader` as configured by this repository: the split tag of
the wrapped dataset, the batch size, and the `shuffle` flag. -/
structure Loader where
  split : String
  batch_size : ℕ
  shuffle : Bool

/-- `submit_rb.py` line 72: `DataLoader(data_train, 64, ..., shuffle=True)`. -/
def loader_train : Loader := { split := "train", batch_size := 64, shuffle := true }

/-- `submit_rb.py` line 73: `DataLoader(data_test, 64, ..., shuffle=False)`. -/
def loader_test : Loader := { split := "test", batch_size := 64, shuffle := false }

/-- `submit_rb.py` line 74: `DataLoader(data_val, 64, ..., shuffle=True)`
(the validation dataset is tagged `"dev"`). -/
def loader_val : Loader := { split := "dev", batch_size := 64, shuffle := true }

/-- `rosenbrock.py` lines 91-92: the `__main__` train loader,
`shuffle=True`. -/
def rb_loader_train : Loader := { split := "train", batch_size := 32, shuffle := true }

/-- `rosenbrock.py` lines 93-94: the `__main__` TEST loader — built with
`shuffle=True` in the source. -/
def rb_loader_test : Loader := { split := "test", batch_size := 32, shuffle := true }

/-- `rosenbrock.py` lines 95-96: the `__main__` validation loader,
`shuffle=True`. -/
def rb_loader_dev : Loader := { split := "dev", batch_size := 32, shuffle := true }

/-- Modelled from the spec: the torch `DataLoader` iteration contract
(external collaborator, §4.3) — a pass over a split of `n` rows visits the
rows in a freshly drawn order `perm` when `shuffle` is set, and in the
original order `0, 1, …, n-1` when it is not. -/
def epochOrder (ld : Loader) (n : ℕ) (perm : List ℕ) : List ℕ :=
  if ld.shuffle then perm else List.range n

/-- Modelled from the spec: `data_split` is defined in `src/utlis.py`, which
is not among the provided sources; per spec §4.1 it partitions the `N`
sampled rows into train, test and validation subsets of sizes
`N - test_size - val_size`, `test_size` and `val_size`, requires
`test_size + val_size < N` (configuration error otherwise), and reuses no
row across splits. -/
def data_split {α : Type} (data : List α) (test_size val_size : ℕ) :
    Option (List α × List α × List α) :=
  if test_size + val_size < data.length then
    let train_size := data.length - test_size - val_size
    some (data.take train_size,
          (data.drop train_size).take test_size,
          (data.drop train_size).drop test_size)
  else
    none

/-!
Helper lemmas about the embedding.
-/

lemma stdVars_eq : stdVars = [("x", "x")] := rfl

lemma stdParams_eq : stdParams = [("p", "p"), ("a", "a")] := rfl

lemma eval_foldl_add (env : String → ℕ → ℚ) (ts : List Expr) (acc : Expr) :
    Expr.eval env (ts.foldl Expr.add acc) =
      Expr.eval env acc + (ts.map (Expr.eval env)).sum := by
  induction ts generalizing acc with
  | nil => simp
  | cons t rest ih =>
    simp only [List.foldl_cons, ih, Expr.eval, List.map_cons, List.sum_cons]
    ring

lemma pySum_eval (env : String → ℕ → ℚ) {ts : List Expr} {e : Expr}
    (h : pySum ts = some e) :
    Expr.eval env e = (ts.map (Expr.eval env)).sum := by
  cases ts with
  | nil => simp [pySum] at h
  | cons t rest =>
    simp only [pySum, Option.some.injEq] at h
    subst h
    simp [eval_foldl_add, Expr.eval]

lemma pySum_isSome_of_ne_nil {ts : List Expr} (h : ts ≠ []) :
    ∃ e, pySum ts = some e := by
  cases ts with
  | nil => exact absurd rfl h
  | cons t rest => exact ⟨_, rfl⟩

lemma objTerms_ne_nil (num_vars : ℤ) (h : 2 ≤ num_vars) :
    objTerms "x" "a" num_vars ≠ [] := by
  simp only [objTerms, ne_eq, List.map_eq_nil_iff, List.range_eq_nil]
  omega

lemma objTerms_eval (env : String → ℕ → ℚ) (num_vars : ℤ) :
    ((objTerms "x" "a" num_vars).map (Expr.eval env)).sum =
      ((List.range (num_vars - 1).toNat).map fun i =>
        (1 - env "x" i) ^ 2 + env "a" i * (env "x" (i + 1) - env "x" i ^ 2) ^ 2).sum := by
  simp only [objTerms, List.map_map]
  congr 1

lemma c0Terms_eval (env : String → ℕ → ℚ) (n : ℕ) :
    ((c0Terms "x" n).map (Expr.eval env)).sum =
      ((List.range n).map fun i => (-1 : ℚ) ^ i * env "x" i).sum := by
  simp only [c0Terms, List.map_map]
  congr 1

lemma sqTerms_eval (env : String → ℕ → ℚ) (n : ℕ) :
    ((sqTerms "x" n).map (Expr.eval env)).sum =
      ((List.range n).map fun i => env "x" i ^ 2).sum := by
  simp only [sqTerms, List.map_map]
  congr 1

lemma get_obj_std (num_vars : ℤ) (h : 2 ≤ num_vars) :
    ∃ f, pySum (objTerms "x" "a" num_vars) = some f ∧
      get_obj stdVars stdParams num_vars =
        Except.ok { expr := f, weight := 1, name := "obj",
                    direction := Direction.minimize } := by
  obtain ⟨f, hf⟩ := pySum_isSome_of_ne_nil (objTerms_ne_nil num_vars h)
  exact ⟨f, hf, by simp [get_obj, stdVars_eq, stdParams_eq, unpack1, unpack2, hf]⟩

/-!
Theorems for the claims.
-/

/-- C2: for every `num_vars ≥ 2`, the objective constructed by `get_obj` is
named "obj", has minimize direction and weight 1, and its expression
evaluates at every datapoint to
`Σ_{i=0}^{num_vars-2} (1 - x_i)² + a_i·(x_{i+1} - x_i²)²`; the particular
value 0 at `num_vars = 3`, `x = [1,1,1]`, `a = [1,1]` is instantiated in
the witness. -/
theorem claim_c2_objective (num_vars : ℤ) (h : 2 ≤ num_vars) :
    ∃ obj, get_obj stdVars stdParams num_vars = Except.ok obj ∧
      obj.name = "obj" ∧ obj.direction = Direction.minimize ∧ obj.weight = 1 ∧
      ∀ env : String → ℕ → ℚ,
        obj.expr.eval env =
          ((List.range (num_vars - 1).toNat).map fun i =>
            (1 - env "x" i) ^ 2 + env "a" i * (env "x" (i + 1) - env "x" i ^ 2) ^ 2).sum := by
  obtain ⟨f, hf, hok⟩ := get_obj_std num_vars h
  refine ⟨_, hok, rfl, rfl, rfl, fun env => ?_⟩
  rw [show ({ expr := f, weight := 1, name := "obj",
              direction := Direction.minimize } : Objective).expr = f from rfl,
      pySum_eval env hf, objTerms_eval]

/-- Witness for C2 at `num_vars = 3`: the objective exists and evaluates to
0 at `x = [1,1,1]`, `a = [1,1]` (the exact Rosenbrock minimum). -/
theorem claim_c2_witness :
    ∃ obj, get_obj stdVars stdParams 3 = Except.ok obj ∧ obj.name = "obj" ∧
      obj.direction = Direction.minimize ∧
      obj.expr.eval (envOf [1, 1, 1] 3 [1, 1]) = 0 := by
  obtain ⟨obj, hok, hname, hdir, _, heval⟩ := claim_c2_objective 3 (by norm_num)
  refine ⟨obj, hok, hname, hdir, ?_⟩
  rw [heval]
  simp [show ((3 : ℤ) - 1).toNat = 2 from rfl, List.range_succ, envOf]

/-- C5: for every `num_vars < 2`, constructing the objective raises at
construction time (for well-formed dicts the empty Python `sum` is the
`int` `0` and `.minimize` on it raises `AttributeError`; malformed dicts
raise `ValueError` even earlier) — never a silently empty objective. -/
theorem claim_c5_fail_fast (vars params : List (String × String)) (num_vars : ℤ)
    (h : num_vars < 2) :
    ∃ e, get_obj vars params num_vars = Except.error e := by
  have hempty : ∀ x a : String, objTerms x a num_vars = [] := fun x a => by
    simp only [objTerms, List.map_eq_nil_iff, List.range_eq_nil]
    omega
  cases h1 : unpack1 (vars.map Prod.snd) with
  | error e => exact ⟨e, by simp [get_obj, h1]⟩
  | ok x =>
    cases h2 : unpack2 (params.map Prod.snd) with
    | error e => exact ⟨e, by simp [get_obj, h1, h2]⟩
    | ok pa =>
      obtain ⟨p, a⟩ := pa
      exact ⟨PyError.attributeError, by simp [get_obj, h1, h2, hempty, pySum]⟩

/-- Witness for C5 at `num_vars = 1` with the dicts built by `rosenbrock`. -/
theorem claim_c5_witness :
    (1 : ℤ) < 2 ∧ ∃ e, get_obj stdVars stdParams 1 = Except.error e :=
  ⟨by norm_num, claim_c5_fail_fast stdVars stdParams 1 (by norm_num)⟩

lemma c0Terms_ne_nil (g : ℤ) (hg : 1 ≤ g) : c0Terms "x" g.toNat ≠ [] := by
  simp only [c0Terms, ne_eq, List.map_eq_nil_iff, List.range_eq_nil]
  omega

lemma sqTerms_ne_nil (g : ℤ) (hg : 1 ≤ g) : sqTerms "x" g.toNat ≠ [] := by
  simp only [sqTerms, ne_eq, List.map_eq_nil_iff, List.range_eq_nil]
  omega

lemma get_constrs_std (pw : ℚ) (g : ℤ) (hg : 1 ≤ g) :
    ∃ g₀ g₁, pySum (c0Terms "x" g.toNat) = some g₀ ∧
      pySum (sqTerms "x" g.toNat) = some g₁ ∧
      get_constrs stdVars stdParams pw (some g) = Except.ok
        [{ lhs := g₀, cmp := Cmp.ge, rhs := Expr.lit 0,
           weight := pw * 1, name := "c0" },
         { lhs := g₁, cmp := Cmp.ge, rhs := Expr.div (Expr.slice "p" 0) (Expr.lit 2),
           weight := pw * 1, name := "c1" },
         { lhs := g₁, cmp := Cmp.le, rhs := Expr.slice "p" 0,
           weight := pw * 1, name := "c2" }] := by
  obtain ⟨g₀, h₀⟩ := pySum_isSome_of_ne_nil (c0Terms_ne_nil g hg)
  obtain ⟨g₁, h₁⟩ := pySum_isSome_of_ne_nil (sqTerms_ne_nil g hg)
  refine ⟨g₀, g₁, h₀, h₁, ?_⟩
  simp [get_constrs, stdVars_eq, stdParams_eq, unpack1, unpack2, h₀, h₁, mulConstraint]

lemma get_constrs_std_none (pw : ℚ) :
    get_constrs stdVars stdParams pw none = Except.error PyError.nameError := rfl

lemma get_constrs_std_nonpos (pw : ℚ) (g : ℤ) (hg : g ≤ 0) :
    get_constrs stdVars stdParams pw (some g) = Except.error PyError.attributeError := by
  have hz : g.toNat = 0 := by omega
  simp [get_constrs, stdVars_eq, stdParams_eq, unpack1, unpack2, hz, c0Terms, pySum]

lemma rosenbrock_std (pw : ℚ) (num_vars : ℤ) (h : 2 ≤ num_vars) (glob : Option ℤ) :
    ∃ obj, get_obj stdVars stdParams num_vars = Except.ok obj ∧
      rosenbrock ["x"] ["p", "a"] pw num_vars glob =
        (match get_constrs stdVars stdParams (num_vars : ℚ) glob with
         | Except.error e => Except.error e
         | Except.ok constrs => Except.ok ([obj], constrs)) := by
  obtain ⟨f, _, hok⟩ := get_obj_std num_vars h
  refine ⟨_, hok, ?_⟩
  simp only [rosenbrock]
  rw [show buildVarDict ["p", "a"] = stdParams from rfl,
      show buildVarDict ["x"] = stdVars from rfl, hok]

/-- C3: the three constraints built by `get_constrs` (with a module-global
`num_vars` bound to `g ≥ 1` governing the index ranges) are, in order:
`c0` with body `Σ (-1)^i·x_i ≥ 0`, `c1` with body `Σ x_i² ≥ p/2`, and
`c2` with body `Σ x_i² ≤ p`; the concrete evaluations of the claim are
instantiated in the witness. -/
theorem claim_c3_constraints (g : ℤ) (hg : 1 ≤ g) (pw : ℚ) :
    ∃ c0 c1 c2, get_constrs stdVars stdParams pw (some g) = Except.ok [c0, c1, c2] ∧
      c0.name = "c0" ∧ c0.cmp = Cmp.ge ∧
      (∀ env, c0.lhs.eval env =
        ((List.range g.toNat).map fun i => (-1 : ℚ) ^ i * env "x" i).sum) ∧
      (∀ env, c0.rhs.eval env = 0) ∧
      c1.name = "c1" ∧ c1.cmp = Cmp.ge ∧
      (∀ env, c1.lhs.eval env = ((List.range g.toNat).map fun i => env "x" i ^ 2).sum) ∧
      (∀ env, c1.rhs.eval env = env "p" 0 / 2) ∧
      c2.name = "c2" ∧ c2.cmp = Cmp.le ∧
      (∀ env, c2.lhs.eval env = ((List.range g.toNat).map fun i => env "x" i ^ 2).sum) ∧
      (∀ env, c2.rhs.eval env = env "p" 0) := by
  obtain ⟨g₀, g₁, h₀, h₁, heq⟩ := get_constrs_std pw g hg
  refine ⟨_, _, _, heq, rfl, rfl, fun env => ?_, fun env => rfl, rfl, rfl,
    fun env => ?_, fun env => rfl, rfl, rfl, fun env => ?_, fun env => rfl⟩
  · show Expr.eval env g₀ = _
    rw [pySum_eval env h₀, c0Terms_eval]
  · show Expr.eval env g₁ = _
    rw [pySum_eval env h₁, sqTerms_eval]
  · show Expr.eval env g₁ = _
    rw [pySum_eval env h₁, sqTerms_eval]

/-- Witness for C3 at `g = 3`, `pw = 100`: at `x = [1,-1,1]` the body of
`c0` evaluates to 3 and `c0` holds; at `x = [1,1,1]`, `p = 3` the sum of
squares is 3, `c1` holds (3 ≥ 1.5) and `c2` holds at the boundary (3 ≤ 3). -/
theorem claim_c3_witness :
    ∃ c0 c1 c2, get_constrs stdVars stdParams 100 (some 3) = Except.ok [c0, c1, c2] ∧
      c0.lhs.eval (envOf [1, -1, 1] 3 [1, 1]) = 3 ∧
      c0.holds (envOf [1, -1, 1] 3 [1, 1]) ∧
      c1.lhs.eval (envOf [1, 1, 1] 3 [1, 1]) = 3 ∧
      c1.holds (envOf [1, 1, 1] 3 [1, 1]) ∧
      c2.holds (envOf [1, 1, 1] 3 [1, 1]) := by
  obtain ⟨c0, c1, c2, heq, hn0, hc0, hl0, hr0, hn1, hc1, hl1, hr1, hn2, hc2, hl2, hr2⟩ :=
    claim_c3_constraints 3 (by norm_num) 100
  have e0 : c0.lhs.eval (envOf [1, -1, 1] 3 [1, 1]) = 3 := by
    rw [hl0]
    simp [show ((3 : ℤ)).toNat = 3 from rfl, List.range_succ, envOf]
    norm_num
  have e1 : c1.lhs.eval (envOf [1, 1, 1] 3 [1, 1]) = 3 := by
    rw [hl1]
    simp [show ((3 : ℤ)).toNat = 3 from rfl, List.range_succ, envOf]
    norm_num
  have e2 : c2.lhs.eval (envOf [1, 1, 1] 3 [1, 1]) = 3 := by
    rw [hl2]
    simp [show ((3 : ℤ)).toNat = 3 from rfl, List.range_succ, envOf]
    norm_num
  refine ⟨c0, c1, c2, heq, e0, ?_, e1, ?_, ?_⟩
  · simp only [Constraint.holds, hc0, e0, hr0]
    norm_num
  · simp only [Constraint.holds, hc1, e1, hr1]
    simp [envOf]
  · simp only [Constraint.holds, hc2, e2, hr2]
    simp [envOf]

/-- Structural probe on a `rosenbrock` result: the node count of the first
constraint's left-hand side (0 for errors). Inspecting only tree shape, it
distinguishes results without deciding rational equalities. -/
def lhsSizeProbe (r : Except PyError (List Objective × List Constraint)) : ℕ :=
  match r with
  | Except.ok (_, c :: _) => c.lhs.size
  | _ => 0

/-- The bodies (lhs, comparison, rhs, name — everything except the weight)
of the constraints of a `rosenbrock` result; `none` for errors. -/
def constraintBodies (r : Except PyError (List Objective × List Constraint)) :
    Option (List (Expr × Cmp × Expr × String)) :=
  match r with
  | Except.ok (_, cs) => some (cs.map fun c => (c.lhs, c.cmp, c.rhs, c.name))
  | Except.error _ => none

/-- Structural probe on constraint bodies: the node count of the first
body's left-hand side (0 when absent). -/
def bodiesSizeProbe (o : Option (List (Expr × Cmp × Expr × String))) : ℕ :=
  match o with
  | some ((e, _, _, _) :: _) => e.size
  | _ => 0

/-- C1 (code bug): `rosenbrock` passes `num_vars` — not its `penalty_weight`
argument — as the `penalty_weight` parameter of `get_constrs` (line 18), so
at `penalty_weight = 100`, `num_vars = 10` (the `__main__` call) every
constraint carries weight 10, not 100; moreover the `penalty_weight`
argument of `rosenbrock` is entirely unused, so the result is invariant
under changing it. -/
theorem claim_c1_weight_bug :
    (∃ objs cs, rosenbrock ["x"] ["p", "a"] 100 10 (some 10) = Except.ok (objs, cs) ∧
      cs.map Constraint.weight = [10, 10, 10] ∧
      cs.map Constraint.weight ≠ [100, 100, 100] ∧
      cs.map Constraint.name = ["c0", "c1", "c2"]) ∧
    ∀ pw pw' : ℚ, ∀ nv glob,
      rosenbrock ["x"] ["p", "a"] pw nv glob = rosenbrock ["x"] ["p", "a"] pw' nv glob := by
  constructor
  · obtain ⟨obj, _, he⟩ := rosenbrock_std 100 10 (by norm_num) (some 10)
    obtain ⟨g₀, g₁, _, _, hc⟩ := get_constrs_std ((10 : ℤ) : ℚ) 10 (by norm_num)
    rw [hc] at he
    refine ⟨[obj], _, he, ?_, ?_, rfl⟩
    · simp
    · simp
  · intro pw pw' nv glob
    rfl

/-- C4 counterexample: a list of TWO decision-variable names that are equal
(`["x", "x"]`) raises no error — the Python dict collapses the duplicate
key, so construction silently succeeds. -/
theorem claim_c4_counterexample :
    (["x", "x"] : List String).length = 2 ∧
    (rosenbrock ["x", "x"] ["p", "a"] 100 3 (some 3)).isOk = true :=
  ⟨rfl, rfl⟩

lemma unpack1_of_length_ne {l : List String} (h : l.length ≠ 1) :
    unpack1 l = Except.error PyError.valueError := by
  match l with
  | [] => rfl
  | [x] => exact absurd rfl h
  | x :: y :: rest => rfl

lemma unpack2_of_length_ne {l : List String} (h : l.length ≠ 2) :
    unpack2 l = Except.error PyError.valueError := by
  match l with
  | [] => rfl
  | [x] => rfl
  | [x, y] => exact absurd rfl h
  | x :: y :: z :: rest => rfl

/-- C4 amended: with a number of DISTINCT decision-variable names other than
one, or of distinct parameter names other than two (i.e. the dicts built
from the key lists have size ≠ 1 resp. ≠ 2), construction raises a
`ValueError` (tuple unpacking) at construction time; duplicate names are
collapsed by the dict, so e.g. `["x", "x"]` silently behaves as the single
name `"x"` (see the counterexample). -/
theorem claim_c4_arity (var_keys param_keys : List String) (pw : ℚ) (nv : ℤ)
    (glob : Option ℤ)
    (h : (buildVarDict var_keys).length ≠ 1 ∨ (buildVarDict param_keys).length ≠ 2) :
    rosenbrock var_keys param_keys pw nv glob = Except.error PyError.valueError := by
  by_cases hv : (buildVarDict var_keys).length = 1
  · have hp : (buildVarDict param_keys).length ≠ 2 := by tauto
    obtain ⟨x, hx⟩ : ∃ x, (buildVarDict var_keys).map Prod.snd = [x] := by
      match hl : buildVarDict var_keys with
      | [] => rw [hl] at hv; exact absurd hv (by simp)
      | [kv] => exact ⟨kv.2, rfl⟩
      | kv :: kw :: rest => rw [hl] at hv; exact absurd hv (by simp)
    have h2 : unpack2 ((buildVarDict param_keys).map Prod.snd) =
        Except.error PyError.valueError :=
      unpack2_of_length_ne (by simpa using hp)
    simp [rosenbrock, get_obj, hx, unpack1, h2]
  · have h1 : unpack1 ((buildVarDict var_keys).map Prod.snd) =
        Except.error PyError.valueError :=
      unpack1_of_length_ne (by simpa using hv)
    simp [rosenbrock, get_obj, h1]

/-- Witness for the amended C4 with two distinct variable names. -/
theorem claim_c4_witness :
    ((buildVarDict ["x", "y"]).length ≠ 1 ∨ (buildVarDict ["p", "a"]).length ≠ 2) ∧
    rosenbrock ["x", "y"] ["p", "a"] 100 3 (some 3) = Except.error PyError.valueError :=
  ⟨Or.inl (by decide), claim_c4_arity _ _ _ _ _ (Or.inl (by decide))⟩

/-- C6 (code bug): problem construction is NOT independent of hidden global
state — two `rosenbrock` calls with identical arguments but different
module-global `num_vars` bindings yield different results (the constraint
index ranges follow the global). -/
theorem claim_c6_global_dependence :
    rosenbrock ["x"] ["p", "a"] 100 3 (some 3) ≠
      rosenbrock ["x"] ["p", "a"] 100 3 (some 2) := by
  intro h
  have h3 : lhsSizeProbe (rosenbrock ["x"] ["p", "a"] 100 3 (some 3)) = 13 := rfl
  have h2 : lhsSizeProbe (rosenbrock ["x"] ["p", "a"] 100 3 (some 2)) = 9 := rfl
  rw [h, h2] at h3
  exact absurd h3 (by decide)

/-- C10: `get_constrs` ranges over the free name `num_vars`. Through
`rosenbrock` (with well-formed keys and `num_vars ≥ 2` so that the earlier
`get_obj` call succeeds): (1) with no module-level `num_vars` binding,
constructing constraint c0 raises a `NameError`; (2) with a global binding
`g`, the constraint bodies are governed by `g` and are independent of the
`num_vars` argument (and of `penalty_weight`); (3) concretely, globals 2
and 3 give different constraint bodies for the same arguments. -/
theorem claim_c10_free_num_vars (pw pw' : ℚ) (nv nv' g : ℤ)
    (h : 2 ≤ nv) (h' : 2 ≤ nv') :
    rosenbrock ["x"] ["p", "a"] pw nv none = Except.error PyError.nameError ∧
    constraintBodies (rosenbrock ["x"] ["p", "a"] pw nv (some g)) =
      constraintBodies (rosenbrock ["x"] ["p", "a"] pw' nv' (some g)) ∧
    constraintBodies (rosenbrock ["x"] ["p", "a"] pw 10 (some 2)) ≠
      constraintBodies (rosenbrock ["x"] ["p", "a"] pw 10 (some 3)) := by
  refine ⟨?_, ?_, ?_⟩
  · obtain ⟨obj, _, he⟩ := rosenbrock_std pw nv h none
    rw [he, get_constrs_std_none]
  · obtain ⟨obj1, _, he1⟩ := rosenbrock_std pw nv h (some g)
    obtain ⟨obj2, _, he2⟩ := rosenbrock_std pw' nv' h' (some g)
    rw [he1, he2]
    rcases le_or_lt g 0 with hg | hg
    · rw [get_constrs_std_nonpos ((nv : ℤ) : ℚ) g hg,
          get_constrs_std_nonpos ((nv' : ℤ) : ℚ) g hg]
    · obtain ⟨g₀, g₁, h₀, h₁, hc1⟩ := get_constrs_std ((nv : ℤ) : ℚ) g (by omega)
      obtain ⟨g₀', g₁', h₀', h₁', hc2⟩ := get_constrs_std ((nv' : ℤ) : ℚ) g (by omega)
      obtain rfl : g₀ = g₀' := Option.some.inj (h₀.symm.trans h₀')
      obtain rfl : g₁ = g₁' := Option.some.inj (h₁.symm.trans h₁')
      rw [hc1, hc2]
      simp [constraintBodies]
  · intro hEq
    have hA : bodiesSizeProbe
        (constraintBodies (rosenbrock ["x"] ["p", "a"] pw 10 (some 2))) = 9 := rfl
    have hB : bodiesSizeProbe
        (constraintBodies (rosenbrock ["x"] ["p", "a"] pw 10 (some 3))) = 13 := rfl
    rw [hEq, hB] at hA
    exact absurd hA (by decide)

/-- Witness for C10 at concrete arguments. -/
theorem claim_c10_witness :
    rosenbrock ["x"] ["p", "a"] 100 2 none = Except.error PyError.nameError ∧
    constraintBodies (rosenbrock ["x"] ["p", "a"] 100 2 (some 3)) =
      constraintBodies (rosenbrock ["x"] ["p", "a"] 7 5 (some 3)) ∧
    constraintBodies (rosenbrock ["x"] ["p", "a"] 100 10 (some 2)) ≠
      constraintBodies (rosenbrock ["x"] ["p", "a"] 100 10 (some 3)) :=
  claim_c10_free_num_vars 100 7 2 5 3 (by norm_num) (by norm_num)

lemma makeConfig_fields {size samples : ℕ} {c : Config}
    (h : makeConfig size samples = some c) :
    dictGet hsize_dict size = some c.hsize ∧ c.batch_size = 64 ∧
      c.lr = 1 / 1000 ∧ c.penalty = 100 := by
  unfold makeConfig at h
  split at h
  · cases hd : dictGet hsize_dict size with
    | none => rw [hd] at h; simp at h
    | some hv =>
      rw [hd] at h
      obtain rfl := Option.some.inj h
      exact ⟨rfl, rfl, rfl, rfl⟩
  · simp at h

/-- C7: for every command-line `size` in its choices list (and valid
`samples`), the configuration is built with the dependent hyperparameters
determined by `size` alone — the hidden width through the lookup table
`hsize_dict` and batch size 64, learning rate 1e-3, penalty weight 100;
in the table's source literal the key 10000 appears twice (1024 then 4096),
the dict keeps the second value, and the hidden width selected for
`size = 10000` is 4096. -/
theorem claim_c7_hyperparameters (size samples : ℕ)
    (hs : size ∈ size_choices) (hm : samples ∈ samples_choices) :
    (∃ c, makeConfig size samples = some c ∧ dictGet hsize_dict size = some c.hsize ∧
       c.batch_size = 64 ∧ c.lr = 1 / 1000 ∧ c.penalty = 100) ∧
    (∀ samples' c c', makeConfig size samples = some c → makeConfig size samples' = some c' →
       c.hsize = c'.hsize ∧ c.batch_size = c'.batch_size ∧
       c.lr = c'.lr ∧ c.penalty = c'.penalty) ∧
    hsize_entries.filter (fun kv => decide (kv.1 = 10000)) = [(10000, 1024), (10000, 4096)] ∧
    dictGet hsize_dict 10000 = some 4096 ∧
    (∀ c, makeConfig 10000 samples = some c → c.hsize = 4096) := by
  refine ⟨?_, ?_, by decide, by decide, ?_⟩
  · have hcond : size ∈ size_choices ∧ samples ∈ samples_choices := ⟨hs, hm⟩
    unfold makeConfig
    rw [if_pos hcond]
    fin_cases hs
    · exact ⟨_, rfl, rfl, rfl, rfl, rfl⟩
    · exact ⟨_, rfl, rfl, rfl, rfl, rfl⟩
    · exact ⟨_, rfl, rfl, rfl, rfl, rfl⟩
    · exact ⟨_, rfl, rfl, rfl, rfl, rfl⟩
    · exact ⟨_, rfl, rfl, rfl, rfl, rfl⟩
  · intro samples' c c' h1 h2
    obtain ⟨hh1, hb1, hl1, hp1⟩ := makeConfig_fields h1
    obtain ⟨hh2, hb2, hl2, hp2⟩ := makeConfig_fields h2
    exact ⟨Option.some.inj (hh1.symm.trans hh2), hb1.trans hb2.symm,
      hl1.trans hl2.symm, hp1.trans hp2.symm⟩
  · intro c hc
    have := (makeConfig_fields hc).1
    have h4096 : dictGet hsize_dict 10000 = some (4096 : ℕ) := by decide
    exact (Option.some.inj (h4096.symm.trans this)).symm

/-- Witness for C7 at `size = 10000`, `samples = 8000`. -/
theorem claim_c7_witness :
    (∃ c, makeConfig 10000 8000 = some c ∧ dictGet hsize_dict 10000 = some c.hsize ∧
       c.batch_size = 64 ∧ c.lr = 1 / 1000 ∧ c.penalty = 100) ∧
    dictGet hsize_dict 10000 = some 4096 ∧
    (∀ c, makeConfig 10000 8000 = some c → c.hsize = 4096) := by
  have h := claim_c7_hyperparameters 10000 8000 (by decide) (by decide)
  exact ⟨h.1, h.2.2.2.1, h.2.2.2.2⟩

/-- C8 counterexample: the claim says the test split preserves the original
row order, but the test loader of the `rosenbrock.py` script block is
constructed with `shuffle=True` (lines 93-94) and therefore reorders its
rows on a pass. -/
theorem claim_c8_counterexample :
    rb_loader_test.split = "test" ∧ rb_loader_test.shuffle = true ∧
    epochOrder rb_loader_test 2 [1, 0] ≠ List.range 2 := by
  refine ⟨rfl, rfl, ?_⟩
  decide

/-- C8 amended: in `submit_rb.py` the train and validation loaders reshuffle
each pass (`shuffle=True`) and the test loader preserves the original order
(`shuffle=False`); in the `rosenbrock.py` script block all three loaders —
the test loader included — are constructed with `shuffle=True` and
reshuffle each pass. -/
theorem claim_c8_shuffle_flags :
    loader_train.shuffle = true ∧ loader_val.shuffle = true ∧
    loader_test.shuffle = false ∧
    (∀ n perm, epochOrder loader_test n perm = List.range n) ∧
    (∀ n perm, epochOrder loader_train n perm = perm) ∧
    (∀ n perm, epochOrder loader_val n perm = perm) ∧
    rb_loader_train.shuffle = true ∧ rb_loader_dev.shuffle = true ∧
    rb_loader_test.shuffle = true ∧
    (∀ n perm, epochOrder rb_loader_test n perm = perm) :=
  ⟨rfl, rfl, rfl, fun _ _ => rfl, fun _ _ => rfl, fun _ _ => rfl,
    rfl, rfl, rfl, fun _ _ => rfl⟩

/-- C9: for all `data`, `test_size`, `val_size` with
`test_size + val_size < N` (`N` the number of datapoints), the split yields
exactly `N - test_size - val_size` train rows, `test_size` test rows and
`val_size` validation rows, and their concatenation is the original data —
so all `N` datapoints are covered and none appears in two splits. -/
theorem claim_c9_split {α : Type} (data : List α) (test_size val_size : ℕ)
    (h : test_size + val_size < data.length) :
    ∃ tr te va, data_split data test_size val_size = some (tr, te, va) ∧
      tr.length = data.length - test_size - val_size ∧
      te.length = test_size ∧ va.length = val_size ∧
      tr ++ te ++ va = data := by
  have hsplit : data_split data test_size val_size =
      some (data.take (data.length - test_size - val_size),
            (data.drop (data.length - test_size - val_size)).take test_size,
            (data.drop (data.length - test_size - val_size)).drop test_size) := by
    unfold data_split
    rw [if_pos h]
  refine ⟨_, _, _, hsplit, ?_, ?_, ?_, ?_⟩
  · simp only [List.length_take]
    omega
  · simp only [List.length_take, List.length_drop]
    omega
  · simp only [List.length_drop]
    omega
  · rw [List.append_assoc, List.take_append_drop, List.take_append_drop]

/-- Witness for C9 on a concrete six-row dataset with
`test_size = 2`, `val_size = 1`. -/
theorem claim_c9_witness :
    2 + 1 < ([10, 20, 30, 40, 50, 60] : List ℕ).length ∧
    ∃ tr te va, data_split ([10, 20, 30, 40, 50, 60] : List ℕ) 2 1 = some (tr, te, va) ∧
      tr.length = 3 ∧ te.length = 2 ∧ va.length = 1 ∧
      tr ++ te ++ va = [10, 20, 30, 40, 50, 60] := by
  refine ⟨by decide, ?_⟩
  obtain ⟨tr, te, va, h1, h2, h3, h4, h5⟩ :=
    claim_c9_split ([10, 20, 30, 40, 50, 60] : List ℕ) 2 1 (by decide)
  exact ⟨tr, te, va, h1, by simpa using h2, h3, h4, h5⟩

end DMIPL
